import Mathlib

/-!
Verification of the Talk server lifecycle (`src/core/server/index.ts`).

The `Server` class methods `connect`, `process` and `start` are embedded as
pure functions over an explicit `ServerState`.  Every awaited external
collaborator (i18n loading, MongoDB/Redis connection, tenant-cache priming,
queue creation, index creation, network listeners) is supplied by an
environment record as an `Except String Unit` result, so a run of a method
yields the mutated state, the ordered trace of external calls that were
made, and the error (if any) that propagated out.  The embedding follows
the source line by line: in particular the `connected` / `processing`
guard flags are set exactly where the source sets them, and a thrown error
leaves every mutation made before the throw in place.
-/

namespace Talk

/-- Configuration values read by `connect`, `process` and `start`
(`this.config.get(...)` in the source). -/
structure Config where
  disable_mongodb_autoindexing : Bool
  concurrency : Nat
  metrics_username : String
  metrics_password : String
  cluster_metrics_port : Nat
  port : Nat
  disable_client_routes : Bool
deriving DecidableEq

/-- External calls made by the server methods, recorded in program order. -/
inductive Event where
  | i18nLoad
  | createMongoDB
  | createAugmentedRedisClient
  | createRedisClient
  | newTenantCache
  | primeAll
  | createQueue
  | collectDefaultMetrics
  | ensureIndexes
  | mailerProcess
  | scraperProcess
  | metricsListen (port : Nat)
  | createApp
  | listenAndServe (port : Nat)
deriving DecidableEq, BEq

/-- The mutable fields of the `Server` instance that the three lifecycle
methods read or write.  `hasMongo`, `hasRedis`, `hasTenantCache`,
`hasTasks` and `hasHttpServer` record whether `this.mongo`, `this.redis`,
`this.tenantCache`, `this.tasks` and `this.httpServer` have been
assigned. -/
structure ServerState where
  connected : Bool
  processing : Bool
  hasMongo : Bool
  hasRedis : Bool
  hasTenantCache : Bool
  hasTasks : Bool
  hasHttpServer : Bool
deriving DecidableEq

/-- The field values established by the `Server` constructor. -/
def initServerState : ServerState :=
  { connected := false
    processing := false
    hasMongo := false
    hasRedis := false
    hasTenantCache := false
    hasTasks := false
    hasHttpServer := false }

deriving instance DecidableEq for Except

/-- Outcomes of the awaited collaborators called by `connect`. -/
structure ConnectEnv where
  i18nLoad : Except String Unit
  createMongoDB : Except String Unit
  createAugmentedRedisClient : Except String Unit
  primeAll : Except String Unit
  createQueue : Except String Unit
deriving DecidableEq

/-- Result of a run of `connect` or `start`: the state after the run, the
trace of external calls made, and the error that propagated out (`none`
for a normal return). -/
structure StepResult where
  state : ServerState
  trace : List Event
  error : Option String
deriving DecidableEq

/-- `Server.connect()`: guard against double connection, set
`this.connected = true`, then await `i18n.load()`, `createMongoDB`,
`createAugmentedRedisClient`, construct the `TenantCache` (with a fresh
`createRedisClient`), await `tenantCache.primeAll()`, await
`createQueue`, and finally call `collectDefaultMetrics`.  A rejection of
any awaited step aborts the method there, leaving earlier assignments in
place. -/
def Server.connect (env : ConnectEnv) (s : ServerState) : StepResult :=
  if s.connected then
    { state := s, trace := [], error := some "server has already connected" }
  else
    let s1 := { s with connected := true }
    match env.i18nLoad with
    | .error e => { state := s1, trace := [.i18nLoad], error := some e }
    | .ok _ =>
    match env.createMongoDB with
    | .error e =>
        { state := s1
          trace := [.i18nLoad, .createMongoDB]
          error := some e }
    | .ok _ =>
    let s2 := { s1 with hasMongo := true }
    match env.createAugmentedRedisClient with
    | .error e =>
        { state := s2
          trace := [.i18nLoad, .createMongoDB, .createAugmentedRedisClient]
          error := some e }
    | .ok _ =>
    let s3 := { s2 with hasRedis := true }
    let s4 := { s3 with hasTenantCache := true }
    match env.primeAll with
    | .error e =>
        { state := s4
          trace := [.i18nLoad, .createMongoDB, .createAugmentedRedisClient,
                    .createRedisClient, .newTenantCache, .primeAll]
          error := some e }
    | .ok _ =>
    match env.createQueue with
    | .error e =>
        { state := s4
          trace := [.i18nLoad, .createMongoDB, .createAugmentedRedisClient,
                    .createRedisClient, .newTenantCache, .primeAll, .createQueue]
          error := some e }
    | .ok _ =>
        { state := { s4 with hasTasks := true }
          trace := [.i18nLoad, .createMongoDB, .createAugmentedRedisClient,
                    .createRedisClient, .newTenantCache, .primeAll, .createQueue,
                    .collectDefaultMetrics]
          error := none }

/-- Outcomes of the collaborators called by `process`, together with the
process-topology fact `cluster.isMaster`. -/
structure ProcessEnv where
  isMaster : Bool
  ensureIndexes : Except String Unit
  metricsListen : Except String Unit
deriving DecidableEq

/-- What the cluster metrics express application is configured with when
`process` builds it: the route path, the listening port, and whether the
basic-auth middleware was mounted on that path. -/
structure MetricsSetup where
  path : String
  port : Nat
  basicAuthMounted : Bool
deriving DecidableEq

/-- Construction of the cluster metrics server inside `process`: the
route is `/cluster_metrics`, the port is `cluster_metrics_port`, and the
basic-auth middleware is mounted when `username && password` is truthy
(both strings non-empty). -/
def buildMetricsServer (cfg : Config) : MetricsSetup :=
  { path := "/cluster_metrics"
    port := cfg.cluster_metrics_port
    basicAuthMounted :=
      cfg.metrics_username != "" && cfg.metrics_password != "" }

/-- Result of a run of `process`: state, trace, the metrics server that is
listening at the end of the run (if any), and the propagated error. -/
structure ProcessResult where
  state : ServerState
  trace : List Event
  metricsServer : Option MetricsSetup
  error : Option String
deriving DecidableEq

/-- `Server.process()`: guard against double processing, set
`this.processing = true`, run `ensureIndexes` unless autoindexing is
disabled, launch `tasks.mailer.process()` and `tasks.scraper.process()`,
and, when `cluster.isMaster && config.get("concurrency") > 1`, build the
cluster metrics server and await `listenAndServe` on
`cluster_metrics_port`. -/
def Server.process (env : ProcessEnv) (cfg : Config) (s : ServerState) :
    ProcessResult :=
  if s.processing then
    { state := s, trace := [], metricsServer := none
      error := some "server has already processing" }
  else
    let s1 := { s with processing := true }
    let idxResult : Except String Unit :=
      if cfg.disable_mongodb_autoindexing then Except.ok () else env.ensureIndexes
    let idxTrace : List Event :=
      if cfg.disable_mongodb_autoindexing then [] else [.ensureIndexes]
    match idxResult with
    | .error e =>
        { state := s1, trace := idxTrace, metricsServer := none
          error := some e }
    | .ok _ =>
      let tr1 := idxTrace ++ [Event.mailerProcess, Event.scraperProcess]
      if env.isMaster && decide (1 < cfg.concurrency) then
        let ms := buildMetricsServer cfg
        match env.metricsListen with
        | .error e =>
            { state := s1
              trace := tr1 ++ [Event.metricsListen ms.port]
              metricsServer := none
              error := some e }
        | .ok _ =>
            { state := s1
              trace := tr1 ++ [Event.metricsListen ms.port]
              metricsServer := some ms
              error := none }
      else
        { state := s1, trace := tr1, metricsServer := none, error := none }

/-- The response actions the `/cluster_metrics` route handler can take:
hand an error to the error-handling chain via `next(err)`, or set the
content type and send the metrics body. -/
inductive HandlerAction where
  | next (err : String)
  | send (contentType : String) (body : String)
deriving DecidableEq

/-- The `/cluster_metrics` route handler body: the callback passed to
`aggregatorRegistry.clusterMetrics` receives either an error or the
aggregated metrics; on error it returns `next(err)`, otherwise it sets
`Content-Type` to `aggregatorRegistry.contentType` and sends the
metrics. -/
def clusterMetricsHandler (contentType : String)
    (result : Except String String) : HandlerAction :=
  match result with
  | .error e => HandlerAction.next e
  | .ok metrics => HandlerAction.send contentType metrics

/-- Outcomes of the collaborators awaited by `start`. -/
structure StartEnv where
  createApp : Except String Unit
  listenAndServe : Except String Unit
deriving DecidableEq

/-- `Server.start()`: guard against not being connected, then await
`createApp` and `listenAndServe(app, port)`, storing the resulting HTTP
server.  There is no guard against a repeated call. -/
def Server.start (env : StartEnv) (cfg : Config) (s : ServerState) :
    StepResult :=
  if !s.connected then
    { state := s, trace := [], error := some "server has not connected yet" }
  else
    match env.createApp with
    | .error e => { state := s, trace := [.createApp], error := some e }
    | .ok _ =>
    match env.listenAndServe with
    | .error e =>
        { state := s
          trace := [.createApp, .listenAndServe cfg.port]
          error := some e }
    | .ok _ =>
        { state := { s with hasHttpServer := true }
          trace := [.createApp, .listenAndServe cfg.port]
          error := none }

/-- The exact sequence of external calls a successful `connect` makes. -/
def connectFullTrace : List Event :=
  [Event.i18nLoad, Event.createMongoDB, Event.createAugmentedRedisClient,
   Event.createRedisClient, Event.newTenantCache, Event.primeAll,
   Event.createQueue, Event.collectDefaultMetrics]

/-- All-successful collaborator outcomes for `connect`. -/
def connectEnvOk : ConnectEnv :=
  ⟨Except.ok (), Except.ok (), Except.ok (), Except.ok (), Except.ok ()⟩

/-- All-successful collaborator outcomes for `start`. -/
def startEnvOk : StartEnv := ⟨Except.ok (), Except.ok ()⟩

/-- A configuration with concurrency 1 and no metrics credentials. -/
def cfgA : Config :=
  { disable_mongodb_autoindexing := false
    concurrency := 1
    metrics_username := ""
    metrics_password := ""
    cluster_metrics_port := 9000
    port := 3000
    disable_client_routes := false }

/-- A configuration with concurrency 4 and metrics credentials set. -/
def cfgB : Config :=
  { disable_mongodb_autoindexing := false
    concurrency := 4
    metrics_username := "admin"
    metrics_password := "hunter2"
    cluster_metrics_port := 9000
    port := 3000
    disable_client_routes := false }

/-- The server state after a fully successful `connect` on a fresh server. -/
def connectedState : ServerState :=
  (Server.connect connectEnvOk initServerState).state

/-- Helper: on a state whose `connected` flag is set, `connect` rejects
immediately with `server has already connected`, making no calls. -/
theorem connect_on_connected (env : ConnectEnv) (s : ServerState)
    (h : s.connected = true) :
    Server.connect env s =
      { state := s, trace := [], error := some "server has already connected" } := by
  simp [Server.connect, h]

/-- Helper: on a state whose `processing` flag is set, `process` rejects
immediately with `server has already processing`, making no calls. -/
theorem process_on_processing (env : ProcessEnv) (cfg : Config)
    (s : ServerState) (h : s.processing = true) :
    Server.process env cfg s =
      { state := s, trace := [], metricsServer := none
        error := some "server has already processing" } := by
  simp [Server.process, h]

/-- Helper: any run of `connect` leaves the `connected` flag set. -/
theorem connect_sets_connected (env : ConnectEnv) (s : ServerState) :
    (Server.connect env s).state.connected = true := by
  rcases env with ⟨i, m, r, p, q⟩
  cases hs : s.connected <;> cases i <;> cases m <;> cases r <;> cases p <;>
    cases q <;> simp_all [Server.connect]

/-- Helper: any run of `process` leaves the `processing` flag set. -/
theorem process_sets_processing (env : ProcessEnv) (cfg : Config)
    (s : ServerState) :
    (Server.process env cfg s).state.processing = true := by
  rcases env with ⟨im, ei, ml⟩
  cases ht : s.processing <;> cases hd : cfg.disable_mongodb_autoindexing <;>
    cases ei <;> cases ml <;> simp_all [Server.process] <;>
      split <;> simp_all

/-- Claim C1: in `Server.connect()` the tenant cache is fully primed
(`primeAll` is awaited to completion) before `createQueue` is invoked:
every successful run of `connect` performs exactly the call sequence
`connectFullTrace`, in which `primeAll` occurs strictly before
`createQueue`. -/
theorem connect_createQueue_after_primeAll (env : ConnectEnv) (s : ServerState)
    (h : (Server.connect env s).error = none) :
    (Server.connect env s).trace = connectFullTrace ∧
    connectFullTrace.indexOf Event.primeAll <
      connectFullTrace.indexOf Event.createQueue := by
  refine ⟨?_, by decide⟩
  rcases env with ⟨i, m, r, p, q⟩
  cases hc : s.connected <;> cases i <;> cases m <;> cases r <;> cases p <;>
    cases q <;> simp_all [Server.connect, connectFullTrace]

/-- Witness for C1 at a concrete all-successful run. -/
theorem connect_createQueue_after_primeAll_witness :
    (Server.connect connectEnvOk initServerState).error = none ∧
    ((Server.connect connectEnvOk initServerState).trace = connectFullTrace ∧
      connectFullTrace.indexOf Event.primeAll <
        connectFullTrace.indexOf Event.createQueue) :=
  ⟨rfl, connect_createQueue_after_primeAll connectEnvOk initServerState rfl⟩

/-- Claim C2: after any first invocation of `connect` the `connected`
flag is set, and a second invocation returns the unchanged state, an
empty trace and the error `server has already connected`; likewise after
any first invocation of `process` the `processing` flag is set, and a
second invocation returns the unchanged state, an empty trace, no metrics
server, and the error `server has already processing`.  Neither second
invocation re-runs the body. -/
theorem double_invocation_guards (cenv₁ cenv₂ : ConnectEnv)
    (penv₁ penv₂ : ProcessEnv) (cfg₁ cfg₂ : Config) (s t : ServerState) :
    (Server.connect cenv₁ s).state.connected = true ∧
    Server.connect cenv₂ (Server.connect cenv₁ s).state =
      { state := (Server.connect cenv₁ s).state, trace := []
        error := some "server has already connected" } ∧
    (Server.process penv₁ cfg₁ t).state.processing = true ∧
    Server.process penv₂ cfg₂ (Server.process penv₁ cfg₁ t).state =
      { state := (Server.process penv₁ cfg₁ t).state, trace := []
        metricsServer := none
        error := some "server has already processing" } := by
  have hc := connect_sets_connected cenv₁ s
  have hp := process_sets_processing penv₁ cfg₁ t
  exact ⟨hc, connect_on_connected cenv₂ _ hc, hp,
    process_on_processing penv₂ cfg₂ _ hp⟩

/-- Claim C3 counterexample: on a server that has successfully connected,
a first call to `start` returns without error, and a second call to
`start` also returns without error and re-runs the body (it creates the
app and listens again), rather than raising an error. -/
theorem start_double_invocation_cex :
    (Server.start startEnvOk cfgA connectedState).error = none ∧
    (Server.start startEnvOk cfgA
        (Server.start startEnvOk cfgA connectedState).state).error = none ∧
    (Server.start startEnvOk cfgA
        (Server.start startEnvOk cfgA connectedState).state).trace =
      [Event.createApp, Event.listenAndServe cfgA.port] := by
  decide

/-- Claim C3 (amended): `start` guards only against not being connected.
On a connected server a second call to `start` is not rejected: it passes
the guard and re-runs the body (its trace begins with `createApp`), and
when both of its collaborators succeed it returns without error, binding
the application a second time. -/
theorem start_second_call_reruns_body (env₁ env₂ : StartEnv)
    (cfg₁ cfg₂ : Config) (s : ServerState) (h : s.connected = true) :
    ((Server.start env₂ cfg₂ (Server.start env₁ cfg₁ s).state).trace).head? =
      some Event.createApp ∧
    (env₂.createApp = Except.ok () → env₂.listenAndServe = Except.ok () →
      (Server.start env₂ cfg₂ (Server.start env₁ cfg₁ s).state).error = none) := by
  have hconn : (Server.start env₁ cfg₁ s).state.connected = true := by
    rcases env₁ with ⟨a, l⟩
    cases a <;> cases l <;> simp_all [Server.start]
  rcases env₂ with ⟨a₂, l₂⟩
  cases a₂ <;> cases l₂ <;> simp_all [Server.start]

/-- Witness for the amended C3 at a concrete connected state. -/
theorem start_second_call_reruns_body_witness :
    connectedState.connected = true ∧
    (((Server.start startEnvOk cfgA
          (Server.start startEnvOk cfgA connectedState).state).trace).head? =
        some Event.createApp ∧
      (startEnvOk.createApp = Except.ok () →
        startEnvOk.listenAndServe = Except.ok () →
        (Server.start startEnvOk cfgA
            (Server.start startEnvOk cfgA connectedState).state).error = none)) :=
  ⟨by decide,
    start_second_call_reruns_body startEnvOk startEnvOk cfgA cfgA connectedState
      (by decide)⟩

/-- Claim C4: when the tenant-cache priming step rejects (and the steps
before it succeeded), `connect` propagates that same error out unhandled,
`createQueue` is never called in that run, and the task queue field is
never assigned. -/
theorem connect_primeAll_failure_propagates (env : ConnectEnv)
    (s : ServerState) (e : String) (hs : s.connected = false)
    (hi : env.i18nLoad = Except.ok ())
    (hm : env.createMongoDB = Except.ok ())
    (hr : env.createAugmentedRedisClient = Except.ok ())
    (hp : env.primeAll = Except.error e) :
    (Server.connect env s).error = some e ∧
    Event.createQueue ∉ (Server.connect env s).trace ∧
    (Server.connect env s).state.hasTasks = s.hasTasks := by
  rcases env with ⟨i, m, r, p, q⟩
  simp_all [Server.connect]

/-- Collaborator outcomes where only the tenant-cache priming fails. -/
def connectEnvPrimeFail : ConnectEnv :=
  ⟨Except.ok (), Except.ok (), Except.ok (),
    Except.error "store unreachable", Except.ok ()⟩

/-- Witness for C4 at a concrete run where priming fails. -/
theorem connect_primeAll_failure_propagates_witness :
    initServerState.connected = false ∧
    connectEnvPrimeFail.i18nLoad = Except.ok () ∧
    connectEnvPrimeFail.primeAll = Except.error "store unreachable" ∧
    ((Server.connect connectEnvPrimeFail initServerState).error =
        some "store unreachable" ∧
      Event.createQueue ∉
        (Server.connect connectEnvPrimeFail initServerState).trace ∧
      (Server.connect connectEnvPrimeFail initServerState).state.hasTasks =
        initServerState.hasTasks) :=
  ⟨rfl, rfl, rfl,
    connect_primeAll_failure_propagates connectEnvPrimeFail initServerState
      "store unreachable" rfl rfl rfl rfl rfl⟩

/-- Claim C5: on a server whose `connected` flag was never set, `start`
throws `server has not connected yet`, makes no external calls (so it
neither creates nor binds the application) and leaves the state
unchanged. -/
theorem start_requires_connected (env : StartEnv) (cfg : Config)
    (s : ServerState) (h : s.connected = false) :
    Server.start env cfg s =
      { state := s, trace := [], error := some "server has not connected yet" } := by
  simp [Server.start, h]

/-- Witness for C5 on a freshly constructed server. -/
theorem start_requires_connected_witness :
    initServerState.connected = false ∧
    Server.start startEnvOk cfgA initServerState =
      { state := initServerState, trace := []
        error := some "server has not connected yet" } :=
  ⟨rfl, start_requires_connected startEnvOk cfgA initServerState rfl⟩

/-- Claim C6: a run of `process` that returns without error starts the
cluster metrics server exactly when the process is the cluster master and
the configured concurrency exceeds 1, and any metrics server it starts
listens on `cluster_metrics_port` and serves `/cluster_metrics`. -/
theorem process_metrics_server_iff_leader (env : ProcessEnv) (cfg : Config)
    (s : ServerState) (h : (Server.process env cfg s).error = none) :
    ((Server.process env cfg s).metricsServer.isSome ↔
      env.isMaster = true ∧ 1 < cfg.concurrency) ∧
    ∀ ms, (Server.process env cfg s).metricsServer = some ms →
      ms.port = cfg.cluster_metrics_port ∧ ms.path = "/cluster_metrics" := by
  rcases env with ⟨im, ei, ml⟩
  cases ht : s.processing <;> cases hd : cfg.disable_mongodb_autoindexing <;>
    cases ei <;> cases ml <;> cases im <;>
      simp_all [Server.process, buildMetricsServer] <;>
        split <;> simp_all

/-- Witness for C6: a master process with concurrency 4 starts the
metrics server on the configured port. -/
theorem process_metrics_server_iff_leader_witness :
    (Server.process ⟨true, Except.ok (), Except.ok ()⟩ cfgB
        initServerState).error = none ∧
    (((Server.process ⟨true, Except.ok (), Except.ok ()⟩ cfgB
          initServerState).metricsServer.isSome ↔
        (true = true ∧ 1 < cfgB.concurrency)) ∧
      ∀ ms, (Server.process ⟨true, Except.ok (), Except.ok ()⟩ cfgB
            initServerState).metricsServer = some ms →
        ms.port = cfgB.cluster_metrics_port ∧ ms.path = "/cluster_metrics") :=
  ⟨rfl, process_metrics_server_iff_leader ⟨true, Except.ok (), Except.ok ()⟩
    cfgB initServerState rfl⟩

/-- Claim C7: `process` launches both job processors unconditionally and
before the leader check: for every cluster-master value and every
concurrency, once past the processing guard and the index step, the trace
is the index step followed immediately by `mailerProcess` and
`scraperProcess`, with any metrics-server activity strictly after
them. -/
theorem process_launches_job_processors (env : ProcessEnv) (cfg : Config)
    (s : ServerState) (hs : s.processing = false)
    (hidx : cfg.disable_mongodb_autoindexing = true ∨
      env.ensureIndexes = Except.ok ()) :
    ∃ post, (Server.process env cfg s).trace =
      (if cfg.disable_mongodb_autoindexing then [] else [Event.ensureIndexes]) ++
      [Event.mailerProcess, Event.scraperProcess] ++ post := by
  rcases env with ⟨im, ei, ml⟩
  cases hd : cfg.disable_mongodb_autoindexing <;> cases ei <;> cases ml <;>
    cases im <;> cases hb : decide (1 < cfg.concurrency) <;>
      (try simp_all [Server.process]) <;>
      first
        | exact ⟨[], by simp⟩
        | exact ⟨[Event.metricsListen cfg.cluster_metrics_port], by simp⟩
        | (refine ⟨[], ?_⟩;
           rw [if_neg (by omega : ¬ (1 < cfg.concurrency))])

/-- Witness for C7: a non-master process with concurrency 1 still
launches both job processors right after the index step. -/
theorem process_launches_job_processors_witness :
    initServerState.processing = false ∧
    (cfgA.disable_mongodb_autoindexing = true ∨
      ProcessEnv.ensureIndexes ⟨false, Except.ok (), Except.ok ()⟩ =
        Except.ok ()) ∧
    ∃ post, (Server.process ⟨false, Except.ok (), Except.ok ()⟩ cfgA
        initServerState).trace =
      (if cfgA.disable_mongodb_autoindexing then []
        else [Event.ensureIndexes]) ++
      [Event.mailerProcess, Event.scraperProcess] ++ post :=
  ⟨rfl, Or.inr rfl,
    process_launches_job_processors ⟨false, Except.ok (), Except.ok ()⟩ cfgA
      initServerState rfl (Or.inr rfl)⟩

/-- Claim C8: the `/cluster_metrics` handler forwards an aggregation
error to the error-handling chain and never sends a metrics body in that
case; on success it sends the aggregated metrics with the registry's
content type. -/
theorem cluster_metrics_handler_spec (ct e m : String) :
    clusterMetricsHandler ct (Except.error e) = HandlerAction.next e ∧
    clusterMetricsHandler ct (Except.ok m) = HandlerAction.send ct m ∧
    ∀ ct2 body, clusterMetricsHandler ct (Except.error e) ≠
      HandlerAction.send ct2 body := by
  refine ⟨rfl, rfl, ?_⟩
  intro ct2 body hcontra
  exact HandlerAction.noConfusion hcontra

/-- Witness for C8 at concrete handler inputs. -/
theorem cluster_metrics_handler_spec_witness :
    clusterMetricsHandler "text/plain" (Except.error "aggregation failed") =
      HandlerAction.next "aggregation failed" ∧
    clusterMetricsHandler "text/plain" (Except.ok "metric 1") =
      HandlerAction.send "text/plain" "metric 1" ∧
    ∀ ct2 body, clusterMetricsHandler "text/plain"
        (Except.error "aggregation failed") ≠
      HandlerAction.send ct2 body :=
  cluster_metrics_handler_spec "text/plain" "aggregation failed" "metric 1"

/-- Claim C9: the basic-auth middleware is mounted on the cluster metrics
server exactly when both `metrics_username` and `metrics_password` are
non-empty, and the metrics route is `/cluster_metrics` either way. -/
theorem metrics_basic_auth_iff (cfg : Config) :
    ((buildMetricsServer cfg).basicAuthMounted = true ↔
      cfg.metrics_username ≠ "" ∧ cfg.metrics_password ≠ "") ∧
    (buildMetricsServer cfg).path = "/cluster_metrics" := by
  refine ⟨?_, rfl⟩
  simp [buildMetricsServer, Bool.and_eq_true, bne_iff_ne]

/-- Witness for C9 at a configuration with both credentials set. -/
theorem metrics_basic_auth_iff_witness :
    (((buildMetricsServer cfgB).basicAuthMounted = true ↔
        cfgB.metrics_username ≠ "" ∧ cfgB.metrics_password ≠ "") ∧
      (buildMetricsServer cfgB).path = "/cluster_metrics") ∧
    (buildMetricsServer cfgB).basicAuthMounted = true ∧
    (buildMetricsServer cfgA).basicAuthMounted = false :=
  ⟨metrics_basic_auth_iff cfgB, rfl, rfl⟩

/-- Claim C10: `connect` sets the `connected` flag before any fallible
work, so a failed `connect` on a fresh server is not rolled back: every
later `connect` on that state rejects with `server has already
connected` without retrying anything, and `start` on that state passes
its connected-guard and runs its body (its trace begins with
`createApp`) even though the cache was never primed. -/
theorem connect_flag_set_before_fallible_work (env env2 : ConnectEnv)
    (senv : StartEnv) (cfg : Config)
    (h : (Server.connect env initServerState).error ≠ none) :
    (Server.connect env initServerState).state.connected = true ∧
    Server.connect env2 (Server.connect env initServerState).state =
      { state := (Server.connect env initServerState).state, trace := []
        error := some "server has already connected" } ∧
    ((Server.start senv cfg
        (Server.connect env initServerState).state).trace).head? =
      some Event.createApp := by
  have hc := connect_sets_connected env initServerState
  refine ⟨hc, connect_on_connected env2 _ hc, ?_⟩
  rcases senv with ⟨a, l⟩
  cases a <;> cases l <;> simp [Server.start, hc]

/-- Witness for C10 at a concrete run where priming fails. -/
theorem connect_flag_set_before_fallible_work_witness :
    (Server.connect connectEnvPrimeFail initServerState).error ≠ none ∧
    ((Server.connect connectEnvPrimeFail initServerState).state.connected =
        true ∧
      Server.connect connectEnvOk
          (Server.connect connectEnvPrimeFail initServerState).state =
        { state := (Server.connect connectEnvPrimeFail initServerState).state
          trace := []
          error := some "server has already connected" } ∧
      ((Server.start startEnvOk cfgA
          (Server.connect connectEnvPrimeFail initServerState).state).trace).head? =
        some Event.createApp) :=
  ⟨by decide,
    connect_flag_set_before_fallible_work connectEnvPrimeFail connectEnvOk
      startEnvOk cfgA (by decide)⟩

end Talk
